import Mathlib

/-!
Shallow embedding of the cesium fork's sector/ring geometry core:
`Source/Core/SectorGeometry.js`, `Source/Core/RingGeometry.js` and
`Source/Workers/createRingGeometry.js`.

JavaScript numbers are modelled by real numbers (the claims about sampled
positions are stated over exact real arithmetic, as the spec itself does);
the `Uint16Array` index store of the sector is modelled by reducing every
stored value modulo 2 ^ 16; `DeveloperError` throws become `Except.error`.
-/

namespace Cesium

/-- Modelled from the spec: `CesiumMath.toRadians` (from `Source/Core/Math.js`,
which is not part of the provided sources).  It converts degrees to radians by
multiplying with `RADIANS_PER_DEGREE = pi / 180`, and raising `degrees` is a
required argument: calling it on a missing value is a `DeveloperError` (the
`SectorGeometry` doc comment lists absence of `sectorAngle` as throwing). -/
noncomputable def toRadians (degrees : ℝ) : ℝ := degrees * (Real.pi / 180)

/-- Modelled from the spec: `CesiumMath.TWO_PI` (from `Source/Core/Math.js`,
not part of the provided sources): the constant `2 * pi`. -/
noncomputable def TWO_PI : ℝ := 2 * Real.pi

/-- `PrimitiveType` values used by the sources. -/
inductive PrimitiveType where
  | TRIANGLES
  | LINES

/-- `BoundingSphere(center, radius)` restricted to the fields the sources set. -/
structure BoundingSphere where
  center : ℝ × ℝ × ℝ
  radius : ℝ

/-- The `Geometry` object returned by `computeSector`
(`SectorGeometry.js` lines 98-103): flattened position buffer, index buffer,
primitive type and bounding sphere. -/
structure Geometry where
  positions : List ℝ
  indices : List ℕ
  primitiveType : PrimitiveType
  boundingSphere : BoundingSphere

/-- `numPts = 1 + Math.ceil(sectorAngle / granularity)`
(`SectorGeometry.js` line 43). -/
noncomputable def sectorNumPts (sectorAngle granularity : ℝ) : ℤ :=
  1 + ⌈sectorAngle / granularity⌉

/-- The unit-circle direction produced by the sampling loop of `computeSector`
(`SectorGeometry.js` lines 52-53 and 68-70): seeded at angle `rotationRad`
and advanced by the incremental rotation
`x' = cos theta * x - sin theta * y`, `y' = sin theta * x + cos theta * y`. -/
noncomputable def arcXY (rotationRad theta : ℝ) : ℕ → ℝ × ℝ
  | 0 => (Real.cos rotationRad, Real.sin rotationRad)
  | i + 1 =>
    (Real.cos theta * (arcXY rotationRad theta i).1
        - Real.sin theta * (arcXY rotationRad theta i).2,
      Real.sin theta * (arcXY rotationRad theta i).1
        + Real.cos theta * (arcXY rotationRad theta i).2)

/-- The position-writing loop of `computeSector`
(`SectorGeometry.js` lines 61-71): each iteration appends the triple
`(x * radius, y * radius, 0)` for the current direction and then advances the
direction; `emitPositions rotationRad theta radius n` is the buffer contents
after `n` iterations (excluding the leading origin triple). -/
noncomputable def emitPositions (rotationRad theta radius : ℝ) : ℕ → List ℝ
  | 0 => []
  | n + 1 =>
    emitPositions rotationRad theta radius n ++
      [(arcXY rotationRad theta n).1 * radius,
        (arcXY rotationRad theta n).2 * radius, 0]

/-- The index-writing loop of `computeSector` (`SectorGeometry.js` lines
79-86): iteration `t` (0-based) appends the fan triangle `(0, t+1, t+2)`;
every store goes through a `Uint16Array`, which reduces the written value
modulo `2 ^ 16 = 65536`.  `emitIndices t` is the buffer after `t`
iterations. -/
def emitIndices : ℕ → List ℕ
  | 0 => []
  | t + 1 => emitIndices t ++ [0 % 65536, (t + 1) % 65536, (t + 2) % 65536]

/-- `computeSector(options)` (`SectorGeometry.js` lines 36-104).  The argument
order mirrors the order in which the source reads `options`: granularity,
radius, rotation (in degrees, converted inside), sectorAngle (radians). -/
noncomputable def computeSector (granularity radius rotation sectorAngle : ℝ) :
    Geometry :=
  { positions :=
      [0, 0, 0] ++
        emitPositions (toRadians rotation)
          (sectorAngle / ((sectorNumPts sectorAngle granularity : ℝ) - 1))
          radius (sectorNumPts sectorAngle granularity).toNat
  , indices := emitIndices ((sectorNumPts sectorAngle granularity).toNat - 1)
  , primitiveType := PrimitiveType.TRIANGLES
  , boundingSphere := { center := (0, 0, 0), radius := radius } }

/-- The options object passed to the `SectorGeometry` constructor; a field
holds `none` when the property is absent.  (No claim exercises non-numeric
sector fields, so provided values are numbers.) -/
structure SectorOptions where
  radius : Option ℝ
  sectorAngle : Option ℝ
  rotation : Option ℝ
  granularity : Option ℝ

/-- The state stored by a successfully constructed `SectorGeometry`
(`SectorGeometry.js` lines 192-196): radius, sectorAngle (already converted
to radians), rotation (still in degrees) and granularity. -/
structure SectorGeometryData where
  radius : ℝ
  sectorAngle : ℝ
  rotation : ℝ
  granularity : ℝ

/-- The `SectorGeometry` constructor (`SectorGeometry.js` lines 158-198).
`options.sectorAngle` is converted by `CesiumMath.toRadians` at line 162,
before any validation, so a missing `sectorAngle` throws from `toRadians`;
afterwards the checks run in source order: radius missing / non-positive,
converted sectorAngle outside `(0, TWO_PI)`, rotation (defaulted to `0.0`)
outside `[0, 360]`, granularity (defaulted to `0.02`) non-positive.
`defaultValue` is modelled by `Option.getD`. -/
noncomputable def SectorGeometryNew (options : SectorOptions) :
    Except String SectorGeometryData :=
  match options.sectorAngle with
  | none => Except.error "degrees is required."
  | some sectorAngleDeg =>
    match options.radius with
    | none => Except.error "radius must be specified!"
    | some radius =>
      if radius ≤ 0 then
        Except.error "radius must be a positive number"
      else if toRadians sectorAngleDeg ≤ 0 ∨ TWO_PI ≤ toRadians sectorAngleDeg then
        Except.error "sectorAngle must be a positive number and less than 360"
      else if options.rotation.getD 0 < 0 ∨ 360 < options.rotation.getD 0 then
        Except.error "rotation angle must be between 0 and 360 degrees"
      else if options.granularity.getD 0.02 ≤ 0 then
        Except.error "granularity must be greater than zero."
      else
        Except.ok
          { radius := radius
          , sectorAngle := toRadians sectorAngleDeg
          , rotation := options.rotation.getD 0
          , granularity := options.granularity.getD 0.02 }

/-- `SectorGeometry.createGeometry` (`SectorGeometry.js` lines 218-229):
runs `computeSector` on the stored fields. -/
noncomputable def SectorGeometry.createGeometry (sg : SectorGeometryData) :
    Geometry :=
  computeSector sg.granularity sg.radius sg.rotation sg.sectorAngle

/-- The `j`-th position triple of a mesh, reading the flat position buffer at
offsets `3 j`, `3 j + 1`, `3 j + 2`. -/
noncomputable def positionTriple (m : Geometry) (j : ℕ) : ℝ × ℝ × ℝ :=
  (m.positions.getD (3 * j) 0, m.positions.getD (3 * j + 1) 0,
    m.positions.getD (3 * j + 2) 0)

/-- The `k`-th fan triangle (1-based, as in the spec) of a sector mesh: the
index triple stored at flat offsets `3 (k-1)`, `3 (k-1) + 1`, `3 (k-1) + 2`. -/
def sectorTriangle (m : Geometry) (k : ℕ) : ℕ × ℕ × ℕ :=
  (m.indices.getD (3 * (k - 1)) 0, m.indices.getD (3 * (k - 1) + 1) 0,
    m.indices.getD (3 * (k - 1) + 2) 0)

/-- The validity conditions on sector parameters stated by the spec: positive
radius, sectorAngle strictly between `0` and `2 pi`, rotation (degrees) in
`[0, 360]`, positive granularity. -/
def ValidSectorParams (granularity radius rotation sectorAngle : ℝ) : Prop :=
  0 < radius ∧ 0 < sectorAngle ∧ sectorAngle < TWO_PI ∧
    0 ≤ rotation ∧ rotation ≤ 360 ∧ 0 < granularity

/-- A JavaScript property value as the ring validation distinguishes them:
a number, a missing value (`undefined` or `null`, for which `defined` is
false), or a defined non-number. -/
inductive JsVal where
  | num (x : ℝ)
  | missing
  | nonNumber

/-- The options object passed to the `RingGeometry` constructor.  The fields
that are merely forwarded to the ellipse-outline parameter sets are left at an
abstract payload type `V`. -/
structure RingOptions (V : Type) where
  center : V
  innerRadius : JsVal
  outerRadius : JsVal
  ellipsoid : V
  height : V
  extrudedHeight : V
  granularity : V
  numberOfVerticalLines : V

/-- The parameter set handed to `new EllipseOutlineGeometry(...)`
(`RingGeometry.js` lines 92-112). -/
structure EllipseOutlineOptions (V : Type) where
  center : V
  semiMajorAxis : ℝ
  semiMinorAxis : ℝ
  ellipsoid : V
  height : V
  extrudedHeight : V
  granularity : V
  numberOfVerticalLines : V

/-- The state stored by a successfully constructed `RingGeometry`
(`RingGeometry.js` lines 114-115): the two ellipse-outline parameter sets. -/
structure RingGeometry (V : Type) where
  innerEllipseGeometry : EllipseOutlineOptions V
  outerEllipseGeometry : EllipseOutlineOptions V

/-- The `RingGeometry` constructor (`RingGeometry.js` lines 67-118):
validates `outerRadius` (defined, number, positive) and then `innerRadius`
(defined, number, positive and strictly below `outerRadius`), then builds the
two ellipse-outline parameter sets. -/
noncomputable def RingGeometryNew {V : Type} (options : RingOptions V) :
    Except String (RingGeometry V) :=
  match options.outerRadius with
  | JsVal.missing => Except.error "outerRadius must be specified!"
  | JsVal.nonNumber => Except.error "outerRadius must be a number!"
  | JsVal.num outerRadius =>
    if outerRadius ≤ 0 then
      Except.error "outerRadius must be a positive number"
    else
      match options.innerRadius with
      | JsVal.missing => Except.error "innerRadius must be specified!"
      | JsVal.nonNumber => Except.error "innerRadius must be a number!"
      | JsVal.num innerRadius =>
        if innerRadius ≤ 0 ∨ outerRadius ≤ innerRadius then
          Except.error "innerRadius must be a positive number and less than outerRadius"
        else
          Except.ok
            { innerEllipseGeometry :=
                { center := options.center
                , semiMajorAxis := innerRadius
                , semiMinorAxis := innerRadius
                , ellipsoid := options.ellipsoid
                , height := options.height
                , extrudedHeight := options.extrudedHeight
                , granularity := options.granularity
                , numberOfVerticalLines := options.numberOfVerticalLines }
            , outerEllipseGeometry :=
                { center := options.center
                , semiMajorAxis := outerRadius
                , semiMinorAxis := outerRadius
                , ellipsoid := options.ellipsoid
                , height := options.height
                , extrudedHeight := options.extrudedHeight
                , granularity := options.granularity
                , numberOfVerticalLines := options.numberOfVerticalLines } }

/-- The result of `EllipseOutlineGeometry.createGeometry` as consumed by
`RingGeometry.createGeometry`: a flat position buffer
(`attributes.position.values`) and an index buffer. -/
structure OutlineGeometryResult where
  positionValues : List ℝ
  indices : List ℕ

/-- The first loop pair of `RingGeometry.createGeometry`
(`RingGeometry.js` lines 164-186): group a flat buffer into
`values.length / 3` Cartesian triples. -/
def cartesiansFromValues (vals : List ℝ) : List (ℝ × ℝ × ℝ) :=
  (List.range (vals.length / 3)).map fun i =>
    (vals.getD (3 * i) 0, vals.getD (3 * i + 1) 0, vals.getD (3 * i + 2) 0)

/-- The second loop pair of `RingGeometry.createGeometry`
(`RingGeometry.js` lines 188-196): walk an index buffer in order, pushing the
dereferenced Cartesian for each index. -/
def walkIndices (carts : List (ℝ × ℝ × ℝ)) (indices : List ℕ) :
    List (ℝ × ℝ × ℝ) :=
  (List.range indices.length).foldl
    (fun acc i => acc ++ [carts.getD (indices.getD i 0) (0, 0, 0)]) []

/-- The value returned by `RingGeometry.createGeometry`
(`RingGeometry.js` lines 207-210): the outer boundary positions and the hole
positions. -/
structure RingResult where
  positions : List (ℝ × ℝ × ℝ)
  holes : List (ℝ × ℝ × ℝ)

/-- The body of `RingGeometry.createGeometry` after the two
`EllipseOutlineGeometry.createGeometry` calls (`RingGeometry.js` lines
158-210): rebuild Cartesians from each flat buffer and dereference them
through the respective index buffers, index-buffer order being authoritative. -/
def ringCreateGeometryWalk (innerGeom outerGeom : OutlineGeometryResult) :
    RingResult :=
  { positions :=
      walkIndices (cartesiansFromValues outerGeom.positionValues)
        outerGeom.indices
  , holes :=
      walkIndices (cartesiansFromValues innerGeom.positionValues)
        innerGeom.indices }

/-- `RingGeometry.createGeometry(ringGeometry)` (`RingGeometry.js` lines
155-211).  The external `EllipseOutlineGeometry.createGeometry` is abstracted
as the function argument `gen`.  When the `ringGeometry` argument is missing
(`none`), the very first property access on it throws a `TypeError`. -/
def RingGeometryCreateGeometry {V : Type}
    (gen : EllipseOutlineOptions V → OutlineGeometryResult) :
    Option (RingGeometry V) → Except String RingResult
  | none => Except.error "TypeError: cannot read properties of undefined"
  | some rg =>
    Except.ok (ringCreateGeometryWalk (gen rg.innerEllipseGeometry)
      (gen rg.outerEllipseGeometry))

/-- The parameters object handed to the worker entry point; the buggy worker
only ever reads `parameters.index`, the rest (the serialized ring descriptor)
is kept as an abstract payload. -/
structure RingWorkerParameters (A I : Type) where
  payload : A
  index : I

/-- The worker's successful result shape (`createRingGeometry.js` lines
16-19). -/
structure RingWorkerResult (I : Type) where
  geometry : RingResult
  index : I

/-- The worker entry point `createRingGeometry(parameters,
transferableObjects)` (`createRingGeometry.js` lines 12-20).  Note the source
calls `RingGeometry.createGeometry()` with no argument, so the geometry
argument is `none`; a thrown error propagates (the subsequent
`PrimitivePipeline.transferGeometry` call is external and unreachable on the
error path). -/
def createRingGeometry {V A I : Type}
    (gen : EllipseOutlineOptions V → OutlineGeometryResult)
    (parameters : RingWorkerParameters A I) :
    Except String (RingWorkerResult I) :=
  match RingGeometryCreateGeometry gen none with
  | Except.error e => Except.error e
  | Except.ok geometry => Except.ok { geometry := geometry, index := parameters.index }

/-- The position triple stored at index `idx` of a flat position buffer (the
spec's "position triple at index `idx` of the position buffer"). -/
def bufferTriple (vals : List ℝ) (idx : ℕ) : ℝ × ℝ × ℝ :=
  (vals.getD (3 * idx) 0, vals.getD (3 * idx + 1) 0, vals.getD (3 * idx + 2) 0)

/-! ### Helper lemmas about the sampling and buffer-writing loops -/

/-- Closed form of the incremental rotation: after `n` steps the direction is
the unit vector at angle `rotationRad + n * theta`. -/
theorem arcXY_eq (ρ θ : ℝ) (n : ℕ) :
    arcXY ρ θ n = (Real.cos (ρ + n * θ), Real.sin (ρ + n * θ)) := by
  induction n with
  | zero => simp [arcXY]
  | succ n ih =>
    have h : ρ + ((n : ℝ) + 1) * θ = (ρ + n * θ) + θ := by ring
    simp only [arcXY, ih, Nat.cast_add, Nat.cast_one, h, Real.cos_add, Real.sin_add,
      Prod.mk.injEq]
    exact ⟨by ring, by ring⟩

/-- Every sampled direction is a unit vector. -/
theorem arcXY_sq (ρ θ : ℝ) (n : ℕ) :
    (arcXY ρ θ n).1 ^ 2 + (arcXY ρ θ n).2 ^ 2 = 1 := by
  rw [arcXY_eq]
  exact Real.cos_sq_add_sin_sq _

theorem emitPositions_length (ρ θ r : ℝ) (n : ℕ) :
    (emitPositions ρ θ r n).length = 3 * n := by
  induction n with
  | zero => rfl
  | succ n ih =>
    simp only [emitPositions, List.length_append, ih, List.length_cons,
      List.length_nil]
    omega

theorem emitPositions_getD (ρ θ r : ℝ) (n j : ℕ) (hj : j < n) :
    (emitPositions ρ θ r n).getD (3 * j) 0 = (arcXY ρ θ j).1 * r ∧
      (emitPositions ρ θ r n).getD (3 * j + 1) 0 = (arcXY ρ θ j).2 * r ∧
      (emitPositions ρ θ r n).getD (3 * j + 2) 0 = 0 := by
  induction n with
  | zero => exact absurd hj (Nat.not_lt_zero j)
  | succ n ih =>
    have hlen : (emitPositions ρ θ r n).length = 3 * n := emitPositions_length ρ θ r n
    by_cases h : j < n
    · refine ⟨?_, ?_, ?_⟩ <;>
        rw [show emitPositions ρ θ r (n + 1) = emitPositions ρ θ r n ++
              [(arcXY ρ θ n).1 * r, (arcXY ρ θ n).2 * r, 0] from rfl,
            List.getD_append _ _ _ _ (by omega)]
      · exact (ih h).1
      · exact (ih h).2.1
      · exact (ih h).2.2
    · have hjn : j = n := by omega
      subst hjn
      refine ⟨?_, ?_, ?_⟩ <;>
        rw [show emitPositions ρ θ r (j + 1) = emitPositions ρ θ r j ++
              [(arcXY ρ θ j).1 * r, (arcXY ρ θ j).2 * r, 0] from rfl,
            List.getD_append_right _ _ _ _ (by omega)] <;>
        simp [hlen]

theorem emitIndices_length (t : ℕ) : (emitIndices t).length = 3 * t := by
  induction t with
  | zero => rfl
  | succ t ih =>
    simp only [emitIndices, List.length_append, ih, List.length_cons,
      List.length_nil]
    omega

theorem emitIndices_getD (t j : ℕ) (hj : j < t) :
    (emitIndices t).getD (3 * j) 0 = 0 ∧
      (emitIndices t).getD (3 * j + 1) 0 = (j + 1) % 65536 ∧
      (emitIndices t).getD (3 * j + 2) 0 = (j + 2) % 65536 := by
  induction t with
  | zero => exact absurd hj (Nat.not_lt_zero j)
  | succ t ih =>
    have hlen : (emitIndices t).length = 3 * t := emitIndices_length t
    by_cases h : j < t
    · refine ⟨?_, ?_, ?_⟩ <;>
        rw [show emitIndices (t + 1) = emitIndices t ++
              [0 % 65536, (t + 1) % 65536, (t + 2) % 65536] from rfl,
            List.getD_append _ _ _ _ (by omega)]
      · exact (ih h).1
      · exact (ih h).2.1
      · exact (ih h).2.2
    · have hjt : j = t := by omega
      subst hjt
      refine ⟨?_, ?_, ?_⟩ <;>
        rw [show emitIndices (j + 1) = emitIndices j ++
              [0 % 65536, (j + 1) % 65536, (j + 2) % 65536] from rfl,
            List.getD_append_right _ _ _ _ (by omega)] <;>
        simp [hlen]

/-- Every value stored by the index loop is at most `t + 1` (the largest
intended index) and below `2 ^ 16` (it went through a `Uint16Array`). -/
theorem emitIndices_mem (t v : ℕ) (hv : v ∈ emitIndices t) :
    v ≤ t + 1 ∧ v < 65536 := by
  induction t with
  | zero => simp [emitIndices] at hv
  | succ t ih =>
    rw [show emitIndices (t + 1) = emitIndices t ++
          [0 % 65536, (t + 1) % 65536, (t + 2) % 65536] from rfl,
        List.mem_append] at hv
    rcases hv with hv | hv
    · exact ⟨le_trans (ih hv).1 (by omega), (ih hv).2⟩
    · have h1 : (t + 1) % 65536 ≤ t + 1 := Nat.mod_le _ _
      have h2 : (t + 2) % 65536 ≤ t + 2 := Nat.mod_le _ _
      have h3 : (t + 1) % 65536 < 65536 := Nat.mod_lt _ (by omega)
      have h4 : (t + 2) % 65536 < 65536 := Nat.mod_lt _ (by omega)
      simp only [List.mem_cons, List.not_mem_nil, or_false] at hv
      rcases hv with rfl | rfl | rfl
      · omega
      · omega
      · omega

/-- The non-origin position triples of `computeSector` are the scaled sampled
directions. -/
theorem computeSector_positionTriple (granularity radius rotation sectorAngle : ℝ)
    (j : ℕ) (h1 : 1 ≤ j) (h2 : j ≤ (sectorNumPts sectorAngle granularity).toNat) :
    positionTriple (computeSector granularity radius rotation sectorAngle) j =
      ((arcXY (toRadians rotation)
          (sectorAngle / ((sectorNumPts sectorAngle granularity : ℝ) - 1)) (j - 1)).1 * radius,
        (arcXY (toRadians rotation)
          (sectorAngle / ((sectorNumPts sectorAngle granularity : ℝ) - 1)) (j - 1)).2 * radius,
        0) := by
  obtain ⟨k, rfl⟩ : ∃ k, j = k + 1 := ⟨j - 1, by omega⟩
  have hk : k < (sectorNumPts sectorAngle granularity).toNat := by omega
  have hgd := emitPositions_getD (toRadians rotation)
    (sectorAngle / ((sectorNumPts sectorAngle granularity : ℝ) - 1)) radius
    (sectorNumPts sectorAngle granularity).toNat k hk
  simp only [positionTriple, computeSector, Nat.add_sub_cancel]
  rw [show (3 : ℕ) * (k + 1) = 3 * k + 1 + 1 + 1 from by ring,
    show ([0, 0, 0] ++ emitPositions (toRadians rotation)
        (sectorAngle / ((sectorNumPts sectorAngle granularity : ℝ) - 1)) radius
        (sectorNumPts sectorAngle granularity).toNat : List ℝ) =
      0 :: 0 :: 0 :: emitPositions (toRadians rotation)
        (sectorAngle / ((sectorNumPts sectorAngle granularity : ℝ) - 1)) radius
        (sectorNumPts sectorAngle granularity).toNat from rfl]
  rw [show (3 : ℕ) * k + 1 + 1 + 1 + 1 = (3 * k + 1) + 1 + 1 + 1 from by ring,
    show (3 : ℕ) * k + 1 + 1 + 1 + 2 = (3 * k + 2) + 1 + 1 + 1 from by ring]
  simp only [List.getD_cons_succ]
  exact Prod.ext hgd.1 (Prod.ext hgd.2.1 hgd.2.2)

/-- An index-driven push loop is a `map` over the range. -/
theorem foldl_push {α : Type} (g : ℕ → α) (n : ℕ) :
    ∀ init : List α,
      (List.range n).foldl (fun acc i => acc ++ [g i]) init =
        init ++ (List.range n).map g := by
  induction n with
  | zero => intro init; simp
  | succ n ih =>
    intro init
    rw [show n + 1 = n.succ from rfl, List.range_succ, List.foldl_append, ih,
      List.map_append]
    simp

/-- Reading every position of a list through `getD` reproduces the list. -/
theorem map_getD_range {α : Type} : ∀ (l : List α) (d : α),
    (List.range l.length).map (fun i => l.getD i d) = l
  | [], _ => rfl
  | a :: t, d => by
    rw [List.length_cons, show t.length + 1 = t.length.succ from rfl,
      List.range_succ_eq_map, List.map_cons, List.map_map]
    have hc : ((fun i => (a :: t).getD i d) ∘ Nat.succ) = fun i => t.getD i d := by
      funext i
      simp [List.getD_cons_succ]
    rw [hc, map_getD_range t d]
    rfl

/-- The dereference loop of `RingGeometry.createGeometry` maps each index of
the index buffer, in index-buffer order, to its Cartesian. -/
theorem walkIndices_eq (carts : List (ℝ × ℝ × ℝ)) (indices : List ℕ) :
    walkIndices carts indices =
      indices.map fun idx => carts.getD idx (0, 0, 0) := by
  unfold walkIndices
  rw [foldl_push, List.nil_append]
  have h1 : (List.range indices.length).map
        (fun i => carts.getD (indices.getD i 0) (0, 0, 0)) =
      ((List.range indices.length).map (fun i => indices.getD i 0)).map
        (fun idx => carts.getD idx (0, 0, 0)) := by
    rw [List.map_map]
    rfl
  rw [h1, map_getD_range]

/-- Each grouped Cartesian is the corresponding flat-buffer triple. -/
theorem cartesiansFromValues_getD (vals : List ℝ) (idx : ℕ)
    (h : idx < vals.length / 3) :
    (cartesiansFromValues vals).getD idx (0, 0, 0) = bufferTriple vals idx := by
  unfold cartesiansFromValues bufferTriple
  rw [List.getD, List.get?_eq_getElem?, List.getElem?_map, List.getElem?_range h]
  rfl

theorem one_lt_TWO_PI : (1 : ℝ) < TWO_PI := by
  unfold TWO_PI
  nlinarith [Real.pi_gt_three]

theorem validSector_1101 : ValidSectorParams 1 1 0 1 :=
  ⟨one_pos, one_pos, one_lt_TWO_PI, le_refl 0, by norm_num, one_pos⟩

theorem validSector_tiny_granularity : ValidSectorParams (1 / 65536) 1 0 1 :=
  ⟨one_pos, one_pos, one_lt_TWO_PI, le_refl 0, by norm_num, by norm_num⟩

theorem sectorNumPts_tiny_granularity : sectorNumPts 1 (1 / 65536) = 65537 := by
  unfold sectorNumPts
  rw [show (1 : ℝ) / (1 / 65536) = ((65536 : ℤ) : ℝ) from by norm_num,
    Int.ceil_intCast]
  norm_num

/-- For valid parameters `numPts` is at least 2 (the spec's minimum). -/
theorem sectorNumPts_ge_two (granularity radius rotation sectorAngle : ℝ)
    (h : ValidSectorParams granularity radius rotation sectorAngle) :
    2 ≤ sectorNumPts sectorAngle granularity := by
  have hc : 0 < sectorAngle / granularity := div_pos h.2.1 h.2.2.2.2.2
  have hcl := Int.ceil_pos.mpr hc
  unfold sectorNumPts
  omega

/-! ### Claim theorems -/

/-- Claim C1 (amended).  For every valid sector parameter set, with
`numPts = 1 + ceil(sectorAngle / granularity)`: the positions buffer has
exactly `3 * (numPts + 1)` entries and its first triple is the origin; the
index buffer has exactly `3 * (numPts - 1)` entries and every index is
`< numPts + 1`; and — provided `numPts ≤ 65535`, which the Uint16 index store
forces — triangle `k` is `(0, k, k + 1)` for every `k` in `[1, numPts - 1]`. -/
theorem sector_mesh_buffers (granularity radius rotation sectorAngle : ℝ)
    (h : ValidSectorParams granularity radius rotation sectorAngle) :
    (computeSector granularity radius rotation sectorAngle).positions.length =
        3 * ((sectorNumPts sectorAngle granularity).toNat + 1) ∧
      positionTriple (computeSector granularity radius rotation sectorAngle) 0 =
        (0, 0, 0) ∧
      (computeSector granularity radius rotation sectorAngle).indices.length =
        3 * ((sectorNumPts sectorAngle granularity).toNat - 1) ∧
      (∀ v ∈ (computeSector granularity radius rotation sectorAngle).indices,
        v < (sectorNumPts sectorAngle granularity).toNat + 1) ∧
      ((sectorNumPts sectorAngle granularity).toNat ≤ 65535 →
        ∀ k, 1 ≤ k → k ≤ (sectorNumPts sectorAngle granularity).toNat - 1 →
          sectorTriangle (computeSector granularity radius rotation sectorAngle) k =
            (0, k, k + 1)) := by
  refine ⟨?_, ?_, ?_, ?_, ?_⟩
  · simp only [computeSector, List.length_append,
      emitPositions_length, List.length_cons, List.length_nil]
    omega
  · rfl
  · simp only [computeSector, emitIndices_length]
  · intro v hv
    have hm := emitIndices_mem _ v hv
    have h2 := sectorNumPts_ge_two granularity radius rotation sectorAngle h
    omega
  · intro hN k hk1 hk2
    have hj : k - 1 < (sectorNumPts sectorAngle granularity).toNat - 1 := by omega
    have hgd := emitIndices_getD _ (k - 1) hj
    have e1 : k - 1 + 1 = k := by omega
    have e2 : k - 1 + 2 = k + 1 := by omega
    rw [e1, e2] at hgd
    have m1 : k % 65536 = k := Nat.mod_eq_of_lt (by omega)
    have m2 : (k + 1) % 65536 = k + 1 := Nat.mod_eq_of_lt (by omega)
    rw [m1] at hgd
    rw [m2] at hgd
    exact Prod.ext hgd.1 (Prod.ext hgd.2.1 hgd.2.2)

/-- Witness for C1's amended theorem at granularity 1, radius 1, rotation 0,
sectorAngle 1 (so `numPts = 2`). -/
theorem sector_mesh_buffers_witness :
    ValidSectorParams 1 1 0 1 ∧
      ((computeSector 1 1 0 1).positions.length =
          3 * ((sectorNumPts 1 1).toNat + 1) ∧
        positionTriple (computeSector 1 1 0 1) 0 = (0, 0, 0) ∧
        (computeSector 1 1 0 1).indices.length =
          3 * ((sectorNumPts 1 1).toNat - 1) ∧
        (∀ v ∈ (computeSector 1 1 0 1).indices, v < (sectorNumPts 1 1).toNat + 1) ∧
        ((sectorNumPts 1 1).toNat ≤ 65535 →
          ∀ k, 1 ≤ k → k ≤ (sectorNumPts 1 1).toNat - 1 →
            sectorTriangle (computeSector 1 1 0 1) k = (0, k, k + 1))) :=
  ⟨validSector_1101, sector_mesh_buffers 1 1 0 1 validSector_1101⟩

/-- Counterexample to C1 as stated: the parameter set radius 1, sectorAngle 1,
rotation 0, granularity `1 / 65536` is valid and yields `numPts = 65537`, but
fan triangle `k = 65535` is stored as `(0, 65535, 0)` — the Uint16 index store
wraps the intended index `65536` to `0` — so triangle `k` is not
`(0, k, k + 1)` for every `k` in `[1, numPts - 1]`. -/
theorem sector_fan_counterexample :
    ValidSectorParams (1 / 65536) 1 0 1 ∧
      (sectorNumPts 1 (1 / 65536)).toNat = 65537 ∧
      sectorTriangle (computeSector (1 / 65536) 1 0 1) 65535 = (0, 65535, 0) ∧
      sectorTriangle (computeSector (1 / 65536) 1 0 1) 65535 ≠
        (0, 65535, 65535 + 1) := by
  have hN : (sectorNumPts 1 (1 / 65536)).toNat = 65537 := by
    rw [sectorNumPts_tiny_granularity]
    rfl
  have hj : (65534 : ℕ) < (sectorNumPts 1 (1 / 65536)).toNat - 1 := by omega
  have hgd := emitIndices_getD _ 65534 hj
  have htri : sectorTriangle (computeSector (1 / 65536) 1 0 1) 65535 =
      (0, 65535, 0) := by
    have e1 : (65534 : ℕ) + 1 = 65535 := by norm_num
    have e2 : (65534 : ℕ) + 2 = 65536 := by norm_num
    rw [e1, e2] at hgd
    have m1 : (65535 : ℕ) % 65536 = 65535 := by norm_num
    have m2 : (65536 : ℕ) % 65536 = 0 := by norm_num
    rw [m1] at hgd
    rw [m2] at hgd
    have e3 : (65535 : ℕ) - 1 = 65534 := by norm_num
    simp only [sectorTriangle, e3]
    exact Prod.ext hgd.1 (Prod.ext hgd.2.1 hgd.2.2)
  refine ⟨validSector_tiny_granularity, hN, htri, ?_⟩
  rw [htri]
  intro hcontra
  have := congrArg (fun p => p.2.2) hcontra
  simp at this

/-- Real-cast of `numPts.toNat` agrees with the integer value when valid. -/
theorem sectorNumPts_toNat_cast (granularity radius rotation sectorAngle : ℝ)
    (h : ValidSectorParams granularity radius rotation sectorAngle) :
    (((sectorNumPts sectorAngle granularity).toNat - 1 : ℕ) : ℝ) =
      (sectorNumPts sectorAngle granularity : ℝ) - 1 := by
  have h2 := sectorNumPts_ge_two granularity radius rotation sectorAngle h
  have hnn : (0 : ℤ) ≤ sectorNumPts sectorAngle granularity := by omega
  have h1 : 1 ≤ (sectorNumPts sectorAngle granularity).toNat := by omega
  have hts : (((sectorNumPts sectorAngle granularity).toNat : ℕ) : ℝ) =
      ((sectorNumPts sectorAngle granularity : ℤ) : ℝ) := by
    rw [← Int.cast_natCast, Int.toNat_of_nonneg hnn]
  rw [Nat.cast_sub h1, hts, Nat.cast_one]

/-- Claim C2.  For every valid sector parameter set `numPts ≥ 2`, the first
sampled direction (before scaling) is exactly `(cos rotation, sin rotation)`
and the last — the seed advanced `numPts - 1` times by the incremental
rotation — is exactly `(cos (rotation + sectorAngle),
sin (rotation + sectorAngle))`, over real arithmetic, with
`theta = sectorAngle / (numPts - 1)` and rotation the constructor's
radian value `toRadians` of the degree input. -/
theorem sector_arc_endpoints (granularity radius rotation sectorAngle : ℝ)
    (h : ValidSectorParams granularity radius rotation sectorAngle) :
    2 ≤ sectorNumPts sectorAngle granularity ∧
      arcXY (toRadians rotation)
          (sectorAngle / ((sectorNumPts sectorAngle granularity : ℝ) - 1)) 0 =
        (Real.cos (toRadians rotation), Real.sin (toRadians rotation)) ∧
      arcXY (toRadians rotation)
          (sectorAngle / ((sectorNumPts sectorAngle granularity : ℝ) - 1))
          ((sectorNumPts sectorAngle granularity).toNat - 1) =
        (Real.cos (toRadians rotation + sectorAngle),
          Real.sin (toRadians rotation + sectorAngle)) := by
  have h2 := sectorNumPts_ge_two granularity radius rotation sectorAngle h
  refine ⟨h2, rfl, ?_⟩
  have hcast := sectorNumPts_toNat_cast granularity radius rotation sectorAngle h
  have hge : (2 : ℝ) ≤ (sectorNumPts sectorAngle granularity : ℝ) := by
    exact_mod_cast h2
  have hne : (sectorNumPts sectorAngle granularity : ℝ) - 1 ≠ 0 := by
    have h0 : (0 : ℝ) < (sectorNumPts sectorAngle granularity : ℝ) - 1 := by
      linarith
    exact ne_of_gt h0
  have hmul : (((sectorNumPts sectorAngle granularity).toNat - 1 : ℕ) : ℝ) *
      (sectorAngle / ((sectorNumPts sectorAngle granularity : ℝ) - 1)) =
        sectorAngle := by
    rw [hcast, mul_comm, div_mul_cancel₀ _ hne]
  rw [arcXY_eq, hmul]

/-- Witness for C2 at granularity 1, radius 1, rotation 0, sectorAngle 1. -/
theorem sector_arc_endpoints_witness :
    ValidSectorParams 1 1 0 1 ∧
      (2 ≤ sectorNumPts 1 1 ∧
        arcXY (toRadians 0) (1 / ((sectorNumPts 1 1 : ℝ) - 1)) 0 =
          (Real.cos (toRadians 0), Real.sin (toRadians 0)) ∧
        arcXY (toRadians 0) (1 / ((sectorNumPts 1 1 : ℝ) - 1))
            ((sectorNumPts 1 1).toNat - 1) =
          (Real.cos (toRadians 0 + 1), Real.sin (toRadians 0 + 1))) :=
  ⟨validSector_1101, sector_arc_endpoints 1 1 0 1 validSector_1101⟩

/-- Scaling a unit vector by `r ≥ 0` puts it at distance exactly `r`. -/
theorem sqrt_scaled (x y r : ℝ) (hr : 0 ≤ r) (hxy : x ^ 2 + y ^ 2 = 1) :
    Real.sqrt ((x * r) ^ 2 + (y * r) ^ 2 + 0 ^ 2) = r := by
  have hsum : (x * r) ^ 2 + (y * r) ^ 2 + (0 : ℝ) ^ 2 = r ^ 2 := by
    linear_combination r ^ 2 * hxy
  rw [hsum, Real.sqrt_sq hr]

/-- Claim C3.  For every valid sector parameter set, every non-origin position
triple of the `computeSector` mesh lies at distance exactly `radius` from the
local origin (real arithmetic), and the bounding sphere is centred at
`(0, 0, 0)` with the input radius. -/
theorem sector_points_distance (granularity radius rotation sectorAngle : ℝ)
    (h : ValidSectorParams granularity radius rotation sectorAngle) :
    (∀ j, 1 ≤ j → j ≤ (sectorNumPts sectorAngle granularity).toNat →
      Real.sqrt
        ((positionTriple (computeSector granularity radius rotation sectorAngle) j).1 ^ 2 +
          (positionTriple (computeSector granularity radius rotation sectorAngle) j).2.1 ^ 2 +
          (positionTriple (computeSector granularity radius rotation sectorAngle) j).2.2 ^ 2) =
        radius) ∧
      (computeSector granularity radius rotation sectorAngle).boundingSphere.center =
        (0, 0, 0) ∧
      (computeSector granularity radius rotation sectorAngle).boundingSphere.radius =
        radius := by
  refine ⟨?_, rfl, rfl⟩
  intro j hj1 hj2
  rw [computeSector_positionTriple granularity radius rotation sectorAngle j hj1 hj2]
  exact sqrt_scaled _ _ radius h.1.le (arcXY_sq _ _ _)

/-- Claim C4.  The `SectorGeometry` constructor fails (with a
`DeveloperError`, modelled as `Except.error`, hence before any geometry is
produced) exactly when `radius ≤ 0`, the converted `sectorAngle` (the radian
value `toRadians` of the degree input, the variable the source checks) lies
outside the open interval `(0, TWO_PI)`, `rotation` lies outside `[0, 360]`,
or `granularity ≤ 0`; in particular for radius 0, radius -5, sectorAngle 0,
converted sectorAngle at or above `2 pi`, rotation 400, and granularity 0. -/
theorem sector_constructor_validation (radius sectorAngleDeg rotation granularity : ℝ) :
    (∃ msg, SectorGeometryNew
        { radius := some radius, sectorAngle := some sectorAngleDeg,
          rotation := some rotation, granularity := some granularity } =
      Except.error msg) ↔
      (radius ≤ 0 ∨ toRadians sectorAngleDeg ≤ 0 ∨
        TWO_PI ≤ toRadians sectorAngleDeg ∨ rotation < 0 ∨ 360 < rotation ∨
        granularity ≤ 0) := by
  simp only [SectorGeometryNew, Option.getD_some]
  split_ifs with h1 h2 h3 h4
  · exact iff_of_true ⟨_, rfl⟩ (Or.inl h1)
  · exact iff_of_true ⟨_, rfl⟩ (by tauto)
  · exact iff_of_true ⟨_, rfl⟩ (by tauto)
  · exact iff_of_true ⟨_, rfl⟩ (by tauto)
  · refine iff_of_false ?_ ?_
    · rintro ⟨msg, hmsg⟩
      cases hmsg
    · push_neg at h2 h3
      rintro (hc | hc | hc | hc | hc | hc)
      · exact h1 hc
      · exact absurd hc (by linarith [h2.1])
      · exact absurd hc (by linarith [h2.2])
      · exact absurd hc (by linarith [h3.1])
      · exact absurd hc (by linarith [h3.2])
      · exact h4 hc

/-- Claim C10.  `rotation` and `granularity` are optional and default to `0.0`
and `0.02`, construction succeeding with those defaults for any valid radius
and sectorAngle, while a missing `radius` or a missing `sectorAngle` always
fails. -/
theorem sector_constructor_defaults (radius sectorAngleDeg : ℝ)
    (h1 : 0 < radius) (h2 : 0 < toRadians sectorAngleDeg)
    (h3 : toRadians sectorAngleDeg < TWO_PI) :
    SectorGeometryNew
        { radius := some radius, sectorAngle := some sectorAngleDeg,
          rotation := none, granularity := none } =
      Except.ok
        { radius := radius, sectorAngle := toRadians sectorAngleDeg,
          rotation := 0, granularity := 0.02 } ∧
      (∀ o : SectorOptions, o.radius = none →
        ∃ msg, SectorGeometryNew o = Except.error msg) ∧
      (∀ o : SectorOptions, o.sectorAngle = none →
        ∃ msg, SectorGeometryNew o = Except.error msg) := by
  refine ⟨?_, ?_, ?_⟩
  · simp only [SectorGeometryNew, Option.getD_none]
    rw [if_neg (by linarith), if_neg ?hc2, if_neg (by norm_num), if_neg (by norm_num)]
    case hc2 =>
      push_neg
      exact ⟨h2, h3⟩
  · intro o ho
    rcases o with ⟨orad, osa, orot, ogran⟩
    simp only at ho
    subst ho
    cases osa with
    | none => exact ⟨_, rfl⟩
    | some a => exact ⟨_, rfl⟩
  · intro o ho
    rcases o with ⟨orad, osa, orot, ogran⟩
    simp only at ho
    subst ho
    exact ⟨_, rfl⟩

/-- Witness for C10 at radius 1, sectorAngle 45 degrees. -/
theorem sector_constructor_defaults_witness :
    (0 : ℝ) < 1 ∧ 0 < toRadians 45 ∧ toRadians 45 < TWO_PI ∧
      SectorGeometryNew
          { radius := some 1, sectorAngle := some 45,
            rotation := none, granularity := none } =
        Except.ok
          { radius := 1, sectorAngle := toRadians 45,
            rotation := 0, granularity := 0.02 } := by
  have h2 : (0 : ℝ) < toRadians 45 := by
    unfold toRadians
    positivity
  have h3 : toRadians 45 < TWO_PI := by
    unfold toRadians TWO_PI
    nlinarith [Real.pi_pos]
  exact ⟨one_pos, h2, h3, (sector_constructor_defaults 1 45 one_pos h2 h3).1⟩

/-- Witness for C3 at granularity 1, radius 1, rotation 0, sectorAngle 1. -/
theorem sector_points_distance_witness :
    ValidSectorParams 1 1 0 1 ∧
      ((∀ j, 1 ≤ j → j ≤ (sectorNumPts 1 1).toNat →
        Real.sqrt
          ((positionTriple (computeSector 1 1 0 1) j).1 ^ 2 +
            (positionTriple (computeSector 1 1 0 1) j).2.1 ^ 2 +
            (positionTriple (computeSector 1 1 0 1) j).2.2 ^ 2) = 1) ∧
        (computeSector 1 1 0 1).boundingSphere.center = (0, 0, 0) ∧
        (computeSector 1 1 0 1).boundingSphere.radius = 1) :=
  ⟨validSector_1101, sector_points_distance 1 1 0 1 validSector_1101⟩

/-- Claim C5.  The `RingGeometry` constructor fails (producing no boundary
output) exactly when a radius is missing or non-numeric, when `outerRadius`
is non-positive, or when both radii are numbers with `innerRadius ≤ 0` or
`innerRadius ≥ outerRadius` (covering equality and inversion). -/
theorem ring_constructor_validation (V : Type) (options : RingOptions V) :
    (∃ msg, RingGeometryNew options = Except.error msg) ↔
      (options.outerRadius = JsVal.missing ∨
        options.outerRadius = JsVal.nonNumber ∨
        options.innerRadius = JsVal.missing ∨
        options.innerRadius = JsVal.nonNumber ∨
        (∃ x, options.outerRadius = JsVal.num x ∧ x ≤ 0) ∨
        (∃ x y, options.outerRadius = JsVal.num x ∧
          options.innerRadius = JsVal.num y ∧ (y ≤ 0 ∨ x ≤ y))) := by
  rcases options with ⟨c, ir, orad, el, hh, eh, gr, nv⟩
  cases orad with
  | missing => simp [RingGeometryNew]
  | nonNumber => simp [RingGeometryNew]
  | num x =>
    simp only [RingGeometryNew]
    split_ifs with hx
    · simp only [JsVal.num.injEq]
      refine iff_of_true ⟨_, rfl⟩ ?_
      exact Or.inr (Or.inr (Or.inr (Or.inr (Or.inl ⟨x, rfl, hx⟩))))
    · cases ir with
      | missing => simp
      | nonNumber => simp
      | num y =>
        dsimp only
        split_ifs with hy
        · simp only [JsVal.num.injEq]
          refine iff_of_true ⟨_, rfl⟩ ?_
          exact Or.inr (Or.inr (Or.inr (Or.inr (Or.inr ⟨x, y, rfl, rfl, hy⟩))))
        · refine iff_of_false ?_ ?_
          · rintro ⟨msg, hmsg⟩
            cases hmsg
          · push_neg at hx hy
            rintro (hc | hc | hc | hc | ⟨x1, hx1, hx2⟩ | ⟨x1, y1, hx1, hy1, hc⟩)
            · cases hc
            · cases hc
            · cases hc
            · cases hc
            · cases hx1
              linarith
            · cases hx1
              cases hy1
              rcases hc with hc | hc
              · linarith [hy.1]
              · linarith [hy.2]

/-- Claim C6.  For valid ring parameters the constructor builds exactly two
ellipse-outline parameter sets, identical except that the inner one has both
axes equal to `innerRadius` and the outer one both axes equal to
`outerRadius`; `center`, `ellipsoid`, `height`, `extrudedHeight`,
`granularity` and `numberOfVerticalLines` are forwarded unchanged to both. -/
theorem ring_constructor_forwards (V : Type) (options : RingOptions V) (ri ro : ℝ)
    (hi : options.innerRadius = JsVal.num ri)
    (ho : options.outerRadius = JsVal.num ro)
    (h0 : 0 < ri) (hlt : ri < ro) :
    RingGeometryNew options = Except.ok
      { innerEllipseGeometry :=
          { center := options.center
          , semiMajorAxis := ri
          , semiMinorAxis := ri
          , ellipsoid := options.ellipsoid
          , height := options.height
          , extrudedHeight := options.extrudedHeight
          , granularity := options.granularity
          , numberOfVerticalLines := options.numberOfVerticalLines }
      , outerEllipseGeometry :=
          { center := options.center
          , semiMajorAxis := ro
          , semiMinorAxis := ro
          , ellipsoid := options.ellipsoid
          , height := options.height
          , extrudedHeight := options.extrudedHeight
          , granularity := options.granularity
          , numberOfVerticalLines := options.numberOfVerticalLines } } := by
  rcases options with ⟨c, ir, orad, el, hh, eh, gr, nv⟩
  simp only at hi ho
  subst hi
  subst ho
  simp only [RingGeometryNew]
  rw [if_neg (by linarith), if_neg ?hc]
  case hc =>
    push_neg
    exact ⟨h0, hlt⟩

/-- Witness for C6 with payloads in `ℕ`, innerRadius 1, outerRadius 2. -/
theorem ring_constructor_forwards_witness :
    (JsVal.num 1 = JsVal.num 1) ∧ (JsVal.num 2 = JsVal.num 2) ∧
      (0 : ℝ) < 1 ∧ (1 : ℝ) < 2 ∧
      RingGeometryNew
          { center := (10 : ℕ), innerRadius := JsVal.num 1,
            outerRadius := JsVal.num 2, ellipsoid := 20, height := 30,
            extrudedHeight := 40, granularity := 50,
            numberOfVerticalLines := 60 } =
        Except.ok
          { innerEllipseGeometry :=
              { center := 10, semiMajorAxis := 1, semiMinorAxis := 1,
                ellipsoid := 20, height := 30, extrudedHeight := 40,
                granularity := 50, numberOfVerticalLines := 60 }
          , outerEllipseGeometry :=
              { center := 10, semiMajorAxis := 2, semiMinorAxis := 2,
                ellipsoid := 20, height := 30, extrudedHeight := 40,
                granularity := 50, numberOfVerticalLines := 60 } } :=
  ⟨rfl, rfl, one_pos, one_lt_two,
    ring_constructor_forwards ℕ
      { center := 10, innerRadius := JsVal.num 1, outerRadius := JsVal.num 2,
        ellipsoid := 20, height := 30, extrudedHeight := 40,
        granularity := 50, numberOfVerticalLines := 60 }
      1 2 rfl rfl one_pos one_lt_two⟩

/-- Claim C7.  For every pair of outline results whose indices are in range,
the ring walk returns as outer boundary exactly the outer index buffer mapped,
in index order, to the position triples of the outer flat buffer, and as hole
exactly the inner index buffer mapped to the inner flat buffer's triples: the
index buffer, not the raw buffer order, dictates boundary order. -/
theorem ring_walk_boundary_order (innerGeom outerGeom : OutlineGeometryResult)
    (hin : ∀ idx ∈ innerGeom.indices,
      idx < innerGeom.positionValues.length / 3)
    (hout : ∀ idx ∈ outerGeom.indices,
      idx < outerGeom.positionValues.length / 3) :
    (ringCreateGeometryWalk innerGeom outerGeom).positions =
        outerGeom.indices.map (fun idx => bufferTriple outerGeom.positionValues idx) ∧
      (ringCreateGeometryWalk innerGeom outerGeom).holes =
        innerGeom.indices.map (fun idx => bufferTriple innerGeom.positionValues idx) := by
  constructor
  · show walkIndices (cartesiansFromValues outerGeom.positionValues)
        outerGeom.indices = _
    rw [walkIndices_eq]
    exact List.map_congr_left fun idx hidx =>
      cartesiansFromValues_getD _ _ (hout idx hidx)
  · show walkIndices (cartesiansFromValues innerGeom.positionValues)
        innerGeom.indices = _
    rw [walkIndices_eq]
    exact List.map_congr_left fun idx hidx =>
      cartesiansFromValues_getD _ _ (hin idx hidx)

/-- Witness for C7 on small concrete outline results (the inner index buffer
`[1, 0]` reorders the raw buffer, exhibiting index-order authority). -/
theorem ring_walk_boundary_order_witness :
    (∀ idx ∈ (OutlineGeometryResult.mk [1, 2, 3, 4, 5, 6] [1, 0]).indices,
      idx < (OutlineGeometryResult.mk [1, 2, 3, 4, 5, 6] [1, 0]).positionValues.length / 3) ∧
      (∀ idx ∈ (OutlineGeometryResult.mk [7, 8, 9] [0, 0]).indices,
        idx < (OutlineGeometryResult.mk [7, 8, 9] [0, 0]).positionValues.length / 3) ∧
      ((ringCreateGeometryWalk (OutlineGeometryResult.mk [1, 2, 3, 4, 5, 6] [1, 0])
            (OutlineGeometryResult.mk [7, 8, 9] [0, 0])).positions =
          (OutlineGeometryResult.mk [7, 8, 9] [0, 0]).indices.map
            (fun idx => bufferTriple (OutlineGeometryResult.mk [7, 8, 9] [0, 0]).positionValues idx) ∧
        (ringCreateGeometryWalk (OutlineGeometryResult.mk [1, 2, 3, 4, 5, 6] [1, 0])
            (OutlineGeometryResult.mk [7, 8, 9] [0, 0])).holes =
          (OutlineGeometryResult.mk [1, 2, 3, 4, 5, 6] [1, 0]).indices.map
            (fun idx => bufferTriple (OutlineGeometryResult.mk [1, 2, 3, 4, 5, 6] [1, 0]).positionValues idx)) := by
  have hin : ∀ idx ∈ (OutlineGeometryResult.mk [1, 2, 3, 4, 5, 6] [1, 0]).indices,
      idx < (OutlineGeometryResult.mk [1, 2, 3, 4, 5, 6] [1, 0]).positionValues.length / 3 := by
    intro idx hidx
    simp only [List.length_cons, List.length_nil] at hidx ⊢
    fin_cases hidx <;> norm_num
  have hout : ∀ idx ∈ (OutlineGeometryResult.mk [7, 8, 9] [0, 0]).indices,
      idx < (OutlineGeometryResult.mk [7, 8, 9] [0, 0]).positionValues.length / 3 := by
    intro idx hidx
    simp only [List.length_cons, List.length_nil] at hidx ⊢
    fin_cases hidx <;> norm_num
  exact ⟨hin, hout, ring_walk_boundary_order _ _ hin hout⟩

/-- Claim C9.  The worker entry point always invokes
`RingGeometry.createGeometry` with a missing argument, so for every input
parameters object the invocation fails with the `TypeError` and never returns
a ring mesh result. -/
theorem ring_worker_always_fails {V A I : Type}
    (gen : EllipseOutlineOptions V → OutlineGeometryResult)
    (parameters : RingWorkerParameters A I) :
    createRingGeometry gen parameters =
        Except.error "TypeError: cannot read properties of undefined" ∧
      ∀ r : RingWorkerResult I, createRingGeometry gen parameters ≠ Except.ok r := by
  refine ⟨rfl, ?_⟩
  intro r hr
  rw [show createRingGeometry gen parameters =
      Except.error "TypeError: cannot read properties of undefined" from rfl] at hr
  cases hr

/-- Claim C8 (amended).  Every stored sector index is the intended fan value
reduced modulo `2 ^ 16`; the bound "every index `< numPts + 1`" holds for all
valid parameters (wrapped values are even smaller), while the indices remain
the intended fan values only when `numPts ≤ 65535`; and whenever
`numPts ≥ 65536` the last triangle's stored third index is `numPts % 65536`,
which aliases an earlier position. -/
theorem sector_index_truncation (granularity radius rotation sectorAngle : ℝ)
    (h : ValidSectorParams granularity radius rotation sectorAngle) :
    (∀ j, j < (sectorNumPts sectorAngle granularity).toNat - 1 →
      (computeSector granularity radius rotation sectorAngle).indices.getD (3 * j) 0 =
          0 % 65536 ∧
        (computeSector granularity radius rotation sectorAngle).indices.getD (3 * j + 1) 0 =
          (j + 1) % 65536 ∧
        (computeSector granularity radius rotation sectorAngle).indices.getD (3 * j + 2) 0 =
          (j + 2) % 65536) ∧
      (∀ v ∈ (computeSector granularity radius rotation sectorAngle).indices,
        v < (sectorNumPts sectorAngle granularity).toNat + 1) ∧
      (65536 ≤ (sectorNumPts sectorAngle granularity).toNat →
        sectorTriangle (computeSector granularity radius rotation sectorAngle)
            ((sectorNumPts sectorAngle granularity).toNat - 1) =
          (0, ((sectorNumPts sectorAngle granularity).toNat - 1) % 65536,
            (sectorNumPts sectorAngle granularity).toNat % 65536) ∧
        (sectorNumPts sectorAngle granularity).toNat % 65536 <
          (sectorNumPts sectorAngle granularity).toNat) := by
  have h2 := sectorNumPts_ge_two granularity radius rotation sectorAngle h
  refine ⟨?_, ?_, ?_⟩
  · intro j hj
    exact emitIndices_getD _ j hj
  · intro v hv
    have hm := emitIndices_mem _ v hv
    omega
  · intro hbig
    have hmod : (sectorNumPts sectorAngle granularity).toNat % 65536 <
        (sectorNumPts sectorAngle granularity).toNat := by
      have := Nat.mod_lt (sectorNumPts sectorAngle granularity).toNat
        (show 0 < 65536 from by norm_num)
      omega
    refine ⟨?_, hmod⟩
    have hj : (sectorNumPts sectorAngle granularity).toNat - 2 <
        (sectorNumPts sectorAngle granularity).toNat - 1 := by omega
    have hgd := emitIndices_getD _ _ hj
    have e0 : (sectorNumPts sectorAngle granularity).toNat - 1 - 1 =
        (sectorNumPts sectorAngle granularity).toNat - 2 := by omega
    have e1 : (sectorNumPts sectorAngle granularity).toNat - 2 + 1 =
        (sectorNumPts sectorAngle granularity).toNat - 1 := by omega
    have e2 : (sectorNumPts sectorAngle granularity).toNat - 2 + 2 =
        (sectorNumPts sectorAngle granularity).toNat := by omega
    rw [e1] at hgd
    rw [e2] at hgd
    simp only [sectorTriangle, e0]
    exact Prod.ext hgd.1 (Prod.ext hgd.2.1 hgd.2.2)

/-- Witness for C8's amended theorem at granularity 1, radius 1, rotation 0,
sectorAngle 1. -/
theorem sector_index_truncation_witness :
    ValidSectorParams 1 1 0 1 ∧
      ((∀ j, j < (sectorNumPts 1 1).toNat - 1 →
        (computeSector 1 1 0 1).indices.getD (3 * j) 0 = 0 % 65536 ∧
          (computeSector 1 1 0 1).indices.getD (3 * j + 1) 0 = (j + 1) % 65536 ∧
          (computeSector 1 1 0 1).indices.getD (3 * j + 2) 0 = (j + 2) % 65536) ∧
        (∀ v ∈ (computeSector 1 1 0 1).indices, v < (sectorNumPts 1 1).toNat + 1) ∧
        (65536 ≤ (sectorNumPts 1 1).toNat →
          sectorTriangle (computeSector 1 1 0 1) ((sectorNumPts 1 1).toNat - 1) =
            (0, ((sectorNumPts 1 1).toNat - 1) % 65536, (sectorNumPts 1 1).toNat % 65536) ∧
          (sectorNumPts 1 1).toNat % 65536 < (sectorNumPts 1 1).toNat)) :=
  ⟨validSector_1101, sector_index_truncation 1 1 0 1 validSector_1101⟩

/-- Counterexample to C8 as stated: at the valid parameters radius 1,
sectorAngle 1, rotation 0, granularity `1 / 65536`, `numPts = 65537` exceeds
65535, yet every stored index is still below `numPts + 1` — the claimed
precondition is not necessary for the bound (it is needed only for the
indices to equal their intended fan values). -/
theorem sector_index_bound_counterexample :
    ValidSectorParams (1 / 65536) 1 0 1 ∧
      65535 < (sectorNumPts 1 (1 / 65536)).toNat ∧
      ∀ v ∈ (computeSector (1 / 65536) 1 0 1).indices,
        v < (sectorNumPts 1 (1 / 65536)).toNat + 1 := by
  have hN : (sectorNumPts 1 (1 / 65536)).toNat = 65537 := by
    rw [sectorNumPts_tiny_granularity]
    rfl
  refine ⟨validSector_tiny_granularity, by omega, ?_⟩
  intro v hv
  have hm := emitIndices_mem _ v hv
  omega

end Cesium
